import Mathlib

/-!
Verification of the staking and market-tracking state machine of the
Polymarket 15-minute up/down trading bot.

The definitions below are a shallow embedding of the TypeScript source:

* `src/bot-15min.ts` — the candle-gate bot variant: class fields
  `currentBetAmount`, `investmentAmount`, `initialAmount`, `tradingSide`,
  `waitingFor5Consecutive`, `orderLock`, `trackedMarkets`, and its methods
  `checkMarketResults` (Step A resolution loop, stake update, Step C
  gate-and-bet section), `checkMarket`, and `hasOpenOrderForMarket`.
* the fixed-side bot variant (same class name, second copy of the file)
  whose loss branch carries the five-loss circuit breaker.
* the instance wrapper that adds `winCount`, `lossCount`, `lastResult`,
  `lastMarketId` and `history` reporting fields on top of the base class.

Monetary amounts and prices are modelled as rationals; the only numeric
operations the embedded code performs (doubling, comparisons, absolute
difference) are exact in binary floating point for the magnitudes involved,
so the rational model is faithful.  A JavaScript number that may be NaN
(the result of constructing a Date from an unparseable string) is modelled
as `Option Rat` with `none` for NaN, and the JavaScript comparison
`NaN > c` evaluating to `false` is modelled by `jsGtNum`.
-/

/-- The two outcome sides of a market, the values of the string union
type used throughout the source. -/
inductive Side
  | UP
  | DOWN
deriving DecidableEq, Repr, Inhabited

/-- Flip UP to DOWN and back, as the circuit-breaker branch does with
the ternary on `tradingSide`. -/
def flipSide : Side → Side
  | Side.UP => Side.DOWN
  | Side.DOWN => Side.UP

/-- The mutable stake fields of the bot class: `currentBetAmount`,
`investmentAmount`, `initialAmount`, `tradingSide` and the
`waitingFor5Consecutive` flag set after a win. -/
structure StakeState where
  currentBetAmount : ℚ
  investmentAmount : ℚ
  initialAmount : ℚ
  tradingSide : Side
  waitingFor5Consecutive : Bool
deriving DecidableEq, Repr

/-- Step 2 of `checkMarketResults` in the candle-gate bot: on a win the
bet is reset to the initial amount and the waiting flag is raised; on a
loss the bet is doubled.  `tradingSide` is not touched on either branch. -/
def applyResult (weWon : Bool) (s : StakeState) : StakeState :=
  if weWon then
    { s with
      currentBetAmount := s.initialAmount
      investmentAmount := s.initialAmount
      waitingFor5Consecutive := true }
  else
    { s with
      currentBetAmount := 2 * s.currentBetAmount
      investmentAmount := 2 * s.currentBetAmount }

/-- The stake update of the fixed-side bot variant: a win resets the bet;
a loss whose previous bet is within 0.01 of sixteen times the initial
amount (the fifth consecutive loss) resets the bet and flips the trading
side, and any other loss doubles the bet. -/
def applyResultCB (weWon : Bool) (s : StakeState) : StakeState :=
  if weWon then
    { s with currentBetAmount := s.initialAmount }
  else
    if |s.currentBetAmount - 16 * s.initialAmount| < 1 / 100 then
      { s with
        currentBetAmount := s.initialAmount
        tradingSide := flipSide s.tradingSide }
    else
      { s with currentBetAmount := 2 * s.currentBetAmount }

/-- One OHLC bar as produced by `getLastNCandles`; only the fields the
gate reads are kept. -/
structure Candle where
  open_ : ℚ
  close : ℚ
deriving DecidableEq, Repr

/-- Candle classification from Step 3 of `checkMarketResults`:
`candle.close > candle.open ? UP : DOWN`. -/
def candleColor (c : Candle) : Side :=
  if c.close > c.open_ then Side.UP else Side.DOWN

/-- The uniform-run test: `candleColors.every(color => color === candleColors[0])`. -/
def allSameColor (cs : List Candle) : Bool :=
  let colors := cs.map candleColor
  colors.all fun col => decide (col = colors.headI)

/-- The dominant color, `candleColors[0]`. -/
def dominantColor (cs : List Candle) : Side :=
  (cs.map candleColor).headI

/-- Lemma: iterating the loss branch of `applyResult` multiplies the bet
by a power of two and preserves the initial amount. -/
theorem applyResult_loss_iterate (n : Nat) (s : StakeState) :
    ((applyResult false)^[n] s).currentBetAmount =
      2 ^ n * s.currentBetAmount ∧
    ((applyResult false)^[n] s).initialAmount = s.initialAmount := by
  induction n with
  | zero => simp
  | succ n ih =>
    rw [Function.iterate_succ_apply']
    constructor
    · simp only [applyResult, if_neg (Bool.false_ne_true)]
      rw [ih.1]
      ring
    · simp only [applyResult, if_neg (Bool.false_ne_true)]
      exact ih.2

/-- Claim C2: a win sets the bet to the initial amount, raises the
waiting flag and leaves the trading side unchanged; a loss exactly
doubles the bet, so N consecutive losses from the initial amount give
initial times two to the N with no drift. -/
theorem martingale_update_correct :
    (∀ s : StakeState,
      (applyResult true s).currentBetAmount = s.initialAmount ∧
      (applyResult true s).waitingFor5Consecutive = true ∧
      (applyResult true s).tradingSide = s.tradingSide) ∧
    (∀ s : StakeState,
      (applyResult false s).currentBetAmount = 2 * s.currentBetAmount) ∧
    (∀ (n : Nat) (s : StakeState), s.currentBetAmount = s.initialAmount →
      ((applyResult false)^[n] s).currentBetAmount =
        s.initialAmount * 2 ^ n) := by
  refine ⟨?_, ?_, ?_⟩
  · intro s
    simp [applyResult]
  · intro s
    simp [applyResult]
  · intro n s h
    rw [(applyResult_loss_iterate n s).1, h]
    ring

/-- A concrete stake state with initial amount 10 and current bet 10. -/
def stake0 : StakeState :=
  { currentBetAmount := 10
    investmentAmount := 10
    initialAmount := 10
    tradingSide := Side.UP
    waitingFor5Consecutive := false }

/-- Witness for claim C2: three consecutive losses from a bet of 10 give 80. -/
theorem martingale_update_correct_witness :
    ((applyResult false)^[3] stake0).currentBetAmount =
      stake0.initialAmount * 2 ^ 3 :=
  martingale_update_correct.2.2 3 stake0 rfl

/-- Claim C3: in the circuit-breaker variant a loss whose previous bet is
within 0.01 of sixteen times the initial amount resets the bet and flips
the side, and every other loss doubles the bet and keeps the side. -/
theorem circuitBreaker_loss_correct :
    ∀ s : StakeState,
      (|s.currentBetAmount - 16 * s.initialAmount| < 1 / 100 →
        (applyResultCB false s).currentBetAmount = s.initialAmount ∧
        (applyResultCB false s).tradingSide = flipSide s.tradingSide) ∧
      (¬ |s.currentBetAmount - 16 * s.initialAmount| < 1 / 100 →
        (applyResultCB false s).currentBetAmount = 2 * s.currentBetAmount ∧
        (applyResultCB false s).tradingSide = s.tradingSide) := by
  intro s
  constructor
  · intro h
    simp only [applyResultCB, if_neg (Bool.false_ne_true), if_pos h]
    exact ⟨trivial, trivial⟩
  · intro h
    simp only [applyResultCB, if_neg (Bool.false_ne_true), if_neg h]
    exact ⟨trivial, trivial⟩

/-- A stake state after four straight losses from an initial amount of 5. -/
def stake80 : StakeState :=
  { currentBetAmount := 80
    investmentAmount := 80
    initialAmount := 5
    tradingSide := Side.UP
    waitingFor5Consecutive := false }

/-- Witness for claim C3: from a bet of 80 with initial 5, the next loss
resets the bet to 5 and flips the side. -/
theorem circuitBreaker_loss_correct_witness :
    (applyResultCB false stake80).currentBetAmount = stake80.initialAmount ∧
    (applyResultCB false stake80).tradingSide = flipSide stake80.tradingSide :=
  (circuitBreaker_loss_correct stake80).1 (by norm_num [stake80])

/-- Claim C7: a bar classifies UP exactly when close is above open, a
tie classifies DOWN, the run is uniform exactly when every bar shares the
first bar classification, and the reported color is that classification. -/
theorem candleGate_classification :
    (∀ c : Candle, (candleColor c = Side.UP ↔ c.close > c.open_)) ∧
    (∀ c : Candle, c.close = c.open_ → candleColor c = Side.DOWN) ∧
    (∀ (c0 : Candle) (cs : List Candle),
      (allSameColor (c0 :: cs) = true ↔
        ∀ x ∈ c0 :: cs, candleColor x = candleColor c0)) ∧
    (∀ (c0 : Candle) (cs : List Candle),
      dominantColor (c0 :: cs) = candleColor c0) := by
  refine ⟨?_, ?_, ?_, ?_⟩
  · intro c
    by_cases h : c.close > c.open_ <;> simp [candleColor, h]
  · intro c h
    simp [candleColor, h]
  · intro c0 cs
    simp [allSameColor, List.all_eq_true, List.headI]
  · intro c0 cs
    simp [dominantColor, List.headI]

/-- Witness for claim C7: a bar closing where it opened classifies DOWN,
and a one-bar doji run is uniform. -/
theorem candleGate_classification_witness :
    candleColor { open_ := 1, close := 1 } = Side.DOWN :=
  candleGate_classification.2.1 { open_ := 1, close := 1 } rfl

/-- Quotes for the two outcomes of one market as returned by
`getTicketPrices`; the token identifiers are not needed here. -/
structure TicketPrices where
  up : ℚ
  down : ℚ
deriving DecidableEq, Repr

/-- The quote the bet side is judged by in the win test of Step A. -/
def sideQuote (side : Side) (q : TicketPrices) : ℚ :=
  match side with
  | Side.UP => q.up
  | Side.DOWN => q.down

/-- The JavaScript comparison `x > c` where `x` may be NaN, modelled as
`none`; any comparison against NaN yields false. -/
def jsGtNum (x : Option ℚ) (c : ℚ) : Bool :=
  match x with
  | none => false
  | some v => decide (v > c)

/-- The collaborator data one iteration of the Step A loop observes for a
tracked market: whether the market lookup found it, whether the market
carries an end date field, the computed seconds until close
(`none` models the NaN produced by an unparseable date string), and the
quote fetch result (`none` when `getTicketPrices` fails). -/
structure ResolveCtx where
  marketFound : Bool
  endDatePresent : Bool
  timeLeftSeconds : Option ℚ
  quote : Option TicketPrices
deriving DecidableEq, Repr

/-- What one iteration of the Step A loop did to the tracked position and
the stake state: whether the position was removed, the computed result if
any (`some true` is a win), and the stake state afterwards. -/
structure ResolveOutcome where
  removed : Bool
  result : Option Bool
  state : StakeState
deriving DecidableEq, Repr

/-- One iteration of the Step A loop of `checkMarketResults` in the
candle-gate bot, for a tracked position that bet `side`: skip when the
market is not found, when the end date field is absent, or when more than
five seconds remain; otherwise delete the position immediately, and if
the quote fetch fails stop there, else declare a win exactly when the
quote for `side` is at least 0.99 and apply the stake update. -/
def resolveTracked15 (side : Side) (ctx : ResolveCtx) (s : StakeState) : ResolveOutcome :=
  if ctx.marketFound = false then { removed := false, result := none, state := s }
  else if ctx.endDatePresent = false then { removed := false, result := none, state := s }
  else if jsGtNum ctx.timeLeftSeconds 5 = true then { removed := false, result := none, state := s }
  else
    match ctx.quote with
    | none => { removed := true, result := none, state := s }
    | some q =>
      let weWon : Bool := decide (sideQuote side q ≥ 99 / 100)
      { removed := true, result := some weWon, state := applyResult weWon s }

/-- Claim C4: when the seconds remaining parse to a number, a result is
computed only once that number is at most five, and the result is a win
exactly when the quote for the bet side is at least 0.99. -/
theorem resolveTracked15_grace_and_win (side : Side) (ctx : ResolveCtx)
    (s : StakeState) (t : ℚ) (r : Bool)
    (ht : ctx.timeLeftSeconds = some t)
    (hr : (resolveTracked15 side ctx s).result = some r) :
    t ≤ 5 ∧ ∃ q, ctx.quote = some q ∧ (r = true ↔ sideQuote side q ≥ 99 / 100) := by
  unfold resolveTracked15 at hr
  split_ifs at hr with h1 h2 h3
  · cases hq : ctx.quote with
    | none => rw [hq] at hr; simp at hr
    | some q =>
      rw [hq] at hr
      simp only [Option.some.injEq] at hr
      refine ⟨?_, q, rfl, ?_⟩
      · by_contra hgt
        have : jsGtNum ctx.timeLeftSeconds 5 = true := by
          rw [ht]
          simp [jsGtNum, lt_of_not_le hgt]
        exact h3 this
      · rw [← hr]
        simp

/-- A context whose market is found, whose close is three seconds away,
and whose UP quote stands at 0.995. -/
def ctxGrace : ResolveCtx :=
  { marketFound := true
    endDatePresent := true
    timeLeftSeconds := some 3
    quote := some { up := 995 / 1000, down := 5 / 1000 } }

/-- Witness for claim C4: the grace theorem applied to a concrete
resolution three seconds before close. -/
theorem resolveTracked15_grace_and_win_witness : (3 : ℚ) ≤ 5 :=
  (resolveTracked15_grace_and_win Side.UP ctxGrace stake0 3 true rfl
    (by norm_num [resolveTracked15, ctxGrace, jsGtNum, sideQuote])).1

/-- A context whose market closed (zero seconds left) but whose quote
fetch failed. -/
def ctxQuoteFail : ResolveCtx :=
  { marketFound := true
    endDatePresent := true
    timeLeftSeconds := some 0
    quote := none }

/-- A context whose end date string is present but unparseable, so the
computed seconds remaining are NaN. -/
def ctxNaN : ResolveCtx :=
  { marketFound := true
    endDatePresent := true
    timeLeftSeconds := none
    quote := some { up := 1 / 2, down := 1 / 2 } }

/-- Claim C5 counterexample: when the quote fetch fails at resolution
time the tracked position has already been removed even though no result
was computed, and an unparseable close time does not defer either — the
NaN comparison lets resolution proceed and the position is removed. -/
theorem resolveTracked15_deferral_counterexample :
    ((resolveTracked15 Side.UP ctxQuoteFail stake0).removed = true ∧
      (resolveTracked15 Side.UP ctxQuoteFail stake0).result = none) ∧
    ((resolveTracked15 Side.UP ctxNaN stake0).removed = true ∧
      (resolveTracked15 Side.UP ctxNaN stake0).result = some false) := by
  norm_num [resolveTracked15, ctxQuoteFail, ctxNaN, jsGtNum, sideQuote]

/-- Claim C5 as amended: an absent end date defers resolution without
touching position or stake; whenever no result is computed the stake
state is unchanged; but a quote failure at resolution time removes the
position without computing a result, and a present-but-unparseable close
time passes the grace check so resolution proceeds. -/
theorem resolveTracked15_deferral_amended :
    (∀ (side : Side) (ctx : ResolveCtx) (s : StakeState),
      ctx.endDatePresent = false →
      resolveTracked15 side ctx s = { removed := false, result := none, state := s }) ∧
    (∀ (side : Side) (ctx : ResolveCtx) (s : StakeState),
      (resolveTracked15 side ctx s).result = none →
      (resolveTracked15 side ctx s).state = s) ∧
    (∀ (side : Side) (ctx : ResolveCtx) (s : StakeState),
      ctx.marketFound = true → ctx.endDatePresent = true →
      jsGtNum ctx.timeLeftSeconds 5 = false → ctx.quote = none →
      (resolveTracked15 side ctx s).removed = true ∧
      (resolveTracked15 side ctx s).result = none) ∧
    (∀ (side : Side) (ctx : ResolveCtx) (s : StakeState),
      ctx.marketFound = true → ctx.endDatePresent = true →
      ctx.timeLeftSeconds = none →
      (resolveTracked15 side ctx s).removed = true) := by
  refine ⟨?_, ?_, ?_, ?_⟩
  · intro side ctx s h
    unfold resolveTracked15
    by_cases h1 : ctx.marketFound = false
    · rw [if_pos h1]
    · rw [if_neg h1, if_pos h]
  · intro side ctx s h
    unfold resolveTracked15 at h ⊢
    split_ifs at h ⊢
    · rfl
    · rfl
    · rfl
    · rcases hq : ctx.quote with _ | q
      · rfl
      · rw [hq] at h
        simp at h
  · intro side ctx s h1 h2 h3 h4
    unfold resolveTracked15
    rw [if_neg (by simp [h1]), if_neg (by simp [h2]), if_neg (by simp [h3]), h4]
    exact ⟨rfl, rfl⟩
  · intro side ctx s h1 h2 h3
    unfold resolveTracked15
    rw [if_neg (by simp [h1]), if_neg (by simp [h2]),
      if_neg (by simp [jsGtNum, h3])]
    cases ctx.quote <;> rfl

/-- A context whose market is found but carries no end date field. -/
def ctxAbsent : ResolveCtx :=
  { marketFound := true
    endDatePresent := false
    timeLeftSeconds := none
    quote := none }

/-- Witness for the amended claim C5: a missing end date leaves position
and stake untouched. -/
theorem resolveTracked15_deferral_amended_witness :
    resolveTracked15 Side.UP ctxAbsent stake0 =
      { removed := false, result := none, state := stake0 } :=
  resolveTracked15_deferral_amended.1 Side.UP ctxAbsent stake0 rfl

/-- One open order as reported by the order-execution client; only the
`market` field is consulted. -/
structure OpenOrder where
  market : String
deriving DecidableEq, Repr

/-- The possible outcomes of the `getOpenOrders` call inside
`hasOpenOrderForMarket`: the call threw, returned a null-ish value,
returned a truthy non-array value, or returned an array of orders. -/
inductive ClobResponse
  | err
  | nullResp
  | notArray
  | arr (orders : List OpenOrder)
deriving DecidableEq, Repr

/-- `hasOpenOrderForMarket`: false when the client is not set up, when
the query throws, or when the response is not an array; otherwise true
exactly when some returned order belongs to the given market. -/
def hasOpenOrderForMarket (clientReady : Bool) (resp : ClobResponse)
    (conditionId : String) : Bool :=
  if clientReady = false then false
  else
    match resp with
    | ClobResponse.err => false
    | ClobResponse.nullResp => false
    | ClobResponse.notArray => false
    | ClobResponse.arr orders => orders.any fun o => o.market == conditionId

/-- Claim C10: every collaborator-failure mode of `hasOpenOrderForMarket`
silently reports that no open order exists, and only a well-formed array
response is actually consulted. -/
theorem hasOpenOrderForMarket_failure_modes :
    (∀ (resp : ClobResponse) (cid : String),
      hasOpenOrderForMarket false resp cid = false) ∧
    (∀ cid : String, hasOpenOrderForMarket true ClobResponse.err cid = false) ∧
    (∀ cid : String, hasOpenOrderForMarket true ClobResponse.nullResp cid = false) ∧
    (∀ cid : String, hasOpenOrderForMarket true ClobResponse.notArray cid = false) ∧
    (∀ (orders : List OpenOrder) (cid : String),
      hasOpenOrderForMarket true (ClobResponse.arr orders) cid =
        orders.any fun o => o.market == cid) := by
  refine ⟨?_, ?_, ?_, ?_, ?_⟩ <;> intros <;> rfl

/-- `Map.set` of the tracked-markets map, modelled on an association
list: overwrite the entry when the key is present, append otherwise. -/
def trackedSet (m : List (String × Side)) (k : String) (v : Side) :
    List (String × Side) :=
  if (m.lookup k).isSome then
    m.map fun p => if p.1 == k then (k, v) else p
  else
    m ++ [(k, v)]

/-- `Map.delete` of the tracked-markets map. -/
def trackedDelete (m : List (String × Side)) (k : String) :
    List (String × Side) :=
  m.filter fun p => p.1 != k

/-- Everything the Step C betting section of `checkMarketResults`
observes during one tick, after the candle gate reported a uniform run:
the condition ids of the current and next window markets (when found),
the tracked map, the lock, the order-execution client state and its
open-orders response, the `getTicketPrices(next)` result, the bet side
(the opposite of the uniform color), and whether the submission returns
an order id. -/
structure StepCInput where
  current : Option String
  next : Option String
  tracked : List (String × Side)
  lock : Bool
  clientReady : Bool
  ordersResp : ClobResponse
  quote : Option TicketPrices
  oppositeColor : Side
  orderSucceeds : Bool
deriving DecidableEq, Repr

/-- What the Step C betting section did: the tracked map and lock
afterwards, the market the order was submitted for together with its
side (when `placeOrder` was reached), and whether the section threw. -/
structure StepCResult where
  tracked : List (String × Side)
  lock : Bool
  submitted : Option (String × Side)
  threw : Bool
deriving DecidableEq, Repr

/-- The Step C betting section of `checkMarketResults` in the
candle-gate bot, entered when all candles share one color.  Mirrors the
source: the target market is `current || next`; the guarded condition id
is taken from `current` alone; the duplicate checks run against that id
once before and once after taking the lock; the quote fetch and the
order submission both use `next` (a non-null assertion, so a missing
next market throws); the position is recorded before the submission and
rolled back when no order id comes back; the lock is released on every
path out of the critical section. -/
def stepCBet (inp : StepCInput) : StepCResult :=
  let noop : StepCResult :=
    { tracked := inp.tracked, lock := inp.lock, submitted := none, threw := false }
  match inp.current, inp.next with
  | none, none => noop
  | _, _ =>
    match inp.current with
    | none => noop
    | some cid =>
      if (inp.tracked.lookup cid).isSome then noop
      else if hasOpenOrderForMarket inp.clientReady inp.ordersResp cid then noop
      else
        match inp.next with
        | none => { noop with threw := true }
        | some ncid =>
          match inp.quote with
          | none => noop
          | some _q =>
            if inp.lock then noop
            else
              if (inp.tracked.lookup cid).isSome then
                { tracked := inp.tracked, lock := false, submitted := none, threw := false }
              else if hasOpenOrderForMarket inp.clientReady inp.ordersResp cid then
                { tracked := inp.tracked, lock := false, submitted := none, threw := false }
              else
                let tracked1 := trackedSet inp.tracked cid inp.oppositeColor
                if inp.orderSucceeds then
                  { tracked := tracked1, lock := false,
                    submitted := some (ncid, inp.oppositeColor), threw := false }
                else
                  { tracked := trackedDelete tracked1 cid, lock := false,
                    submitted := some (ncid, inp.oppositeColor), threw := false }

/-- The per-market inputs of one `checkMarket` call in the candle-gate
bot: the condition id of the market under consideration, the
already-processed set, the lock, the tracked map, the client state and
open-orders response, the quote result, the configured trading side and
the submission outcome. -/
structure CheckMarketInput where
  conditionId : Option String
  processed : List String
  lock : Bool
  tracked : List (String × Side)
  clientReady : Bool
  ordersResp : ClobResponse
  quote : Option TicketPrices
  tradingSide : Side
  orderSucceeds : Bool
deriving DecidableEq, Repr

/-- What one `checkMarket` call did to the processed set, tracked map
and lock, and the market an order was submitted for, if any. -/
structure CheckMarketResult where
  processed : List String
  tracked : List (String × Side)
  lock : Bool
  submitted : Option (String × Side)
deriving DecidableEq, Repr

/-- The `checkMarket` method of the candle-gate bot: skip when already
processed, locked, tracked or externally open; apply the under-fifty-cent
entry filter on the configured side; then take the lock, re-run both
duplicate checks, record the position, submit, roll back on failure and
release the lock on every exit path. -/
def checkMarketFn (inp : CheckMarketInput) : CheckMarketResult :=
  let noop : CheckMarketResult :=
    { processed := inp.processed, tracked := inp.tracked, lock := inp.lock,
      submitted := none }
  match inp.conditionId with
  | none => noop
  | some cid =>
    if inp.processed.contains cid then noop
    else if inp.lock then noop
    else if (inp.tracked.lookup cid).isSome then
      { noop with processed := inp.processed ++ [cid] }
    else if hasOpenOrderForMarket inp.clientReady inp.ordersResp cid then
      { noop with processed := inp.processed ++ [cid] }
    else
      match inp.quote with
      | none => noop
      | some q =>
        let entryOk : Bool :=
          match inp.tradingSide with
          | Side.DOWN => decide (q.down * 100 < 50)
          | Side.UP => decide (q.up * 100 < 50)
        if entryOk = false then noop
        else if inp.lock then noop
        else
          let processed1 := inp.processed ++ [cid]
          if (inp.tracked.lookup cid).isSome then
            { processed := processed1, tracked := inp.tracked, lock := false,
              submitted := none }
          else if hasOpenOrderForMarket inp.clientReady inp.ordersResp cid then
            { processed := processed1, tracked := inp.tracked, lock := false,
              submitted := none }
          else
            let tracked1 := trackedSet inp.tracked cid inp.tradingSide
            if inp.orderSucceeds then
              { processed := processed1, tracked := tracked1, lock := false,
                submitted := some (cid, inp.tradingSide) }
            else
              { processed := processed1, tracked := trackedDelete tracked1 cid,
                lock := false, submitted := some (cid, inp.tradingSide) }

/-- A tick state in which the bot restarted with an empty tracked map
while an order from the previous session is still open on the next
window market: the guard runs against the current window id, finds
nothing, and the order is submitted for the next window market anyway. -/
def exC1 : StepCInput :=
  { current := some "mkt-current"
    next := some "mkt-next"
    tracked := []
    lock := false
    clientReady := true
    ordersResp := ClobResponse.arr [{ market := "mkt-next" }]
    quote := some { up := 1 / 4, down := 3 / 4 }
    oppositeColor := Side.UP
    orderSucceeds := true }

/-- Claim C1 fails on the code: the tick submits a buy order for the
next window market while the gateway reports an existing open order for
that very market, because both duplicate checks run against the current
window id instead of the market the order is placed on. -/
theorem stepCBet_buys_despite_open_order :
    hasOpenOrderForMarket exC1.clientReady exC1.ordersResp "mkt-next" = true ∧
    (stepCBet exC1).submitted = some ("mkt-next", Side.UP) := by
  exact ⟨rfl, rfl⟩

/-- A tick in which only the next window market exists. -/
def exC6a : StepCInput :=
  { current := none
    next := some "mkt-next"
    tracked := []
    lock := false
    clientReady := true
    ordersResp := ClobResponse.arr []
    quote := some { up := 1 / 4, down := 3 / 4 }
    oppositeColor := Side.UP
    orderSucceeds := true }

/-- A tick in which both window markets exist. -/
def exC6b : StepCInput :=
  { exC6a with current := some "mkt-current" }

/-- Claim C6 fails on the code: with only the next market available the
step aborts instead of betting on it, and with both markets available
the tracked position is recorded under the current window id while the
order is submitted for the next window market. -/
theorem stepCBet_target_market_mismatch :
    ((stepCBet exC6a).submitted = none ∧ (stepCBet exC6a).tracked = [] ∧
      exC6a.next = some "mkt-next") ∧
    ((stepCBet exC6b).submitted = some ("mkt-next", Side.UP) ∧
      ((stepCBet exC6b).tracked.lookup "mkt-next") = none ∧
      ((stepCBet exC6b).tracked.lookup "mkt-current") = some Side.UP) := by
  refine ⟨⟨rfl, rfl, rfl⟩, ⟨rfl, rfl, rfl⟩⟩

/-- Claim C8: both critical sections release the order lock on every
exit path, so a tick that starts with the lock free ends with it free. -/
theorem orderLock_released :
    (∀ inp : StepCInput, inp.lock = false → (stepCBet inp).lock = false) ∧
    (∀ inp : CheckMarketInput, inp.lock = false → (checkMarketFn inp).lock = false) := by
  constructor
  · intro inp h
    obtain ⟨cur, nxt, tracked, lock, ready, resp, quote, color, ok⟩ := inp
    rcases cur with _ | cid <;> rcases nxt with _ | ncid <;>
      rcases quote with _ | q <;>
      simp only [stepCBet] <;> (try split_ifs) <;> first | rfl | exact h
  · intro inp h
    obtain ⟨mcid, processed, lock, tracked, ready, resp, quote, side, ok⟩ := inp
    rcases mcid with _ | cid <;> rcases quote with _ | q <;>
      simp only [checkMarketFn] <;> (try split_ifs) <;> first | rfl | exact h

/-- A concrete lock-free Step C input whose submission succeeds. -/
def exLockC : StepCInput := exC6b

/-- A concrete lock-free `checkMarket` input whose submission succeeds. -/
def exLockM : CheckMarketInput :=
  { conditionId := some "mkt-current"
    processed := []
    lock := false
    tracked := []
    clientReady := true
    ordersResp := ClobResponse.arr []
    quote := some { up := 1 / 4, down := 3 / 4 }
    tradingSide := Side.UP
    orderSucceeds := true }

/-- Witness for claim C8: both sections applied to concrete lock-free
inputs end with the lock free. -/
theorem orderLock_released_witness :
    (stepCBet exLockC).lock = false ∧ (checkMarketFn exLockM).lock = false :=
  ⟨orderLock_released.1 exLockC rfl, orderLock_released.2 exLockM rfl⟩

/-- One entry of the reporting history declared on the instance wrapper:
market id, result (true is a win), the bet amount, the side and a
timestamp string. -/
structure HistoryEntry where
  marketId : String
  result : Bool
  betAmount : ℚ
  side : Side
  timestamp : String
deriving DecidableEq, Repr

/-- The state of the instance wrapper class: the inherited stake fields
plus the reporting fields `winCount`, `lossCount`, `lastResult`,
`lastMarketId` and `history`. -/
structure WrapperState where
  stake : StakeState
  winCount : Nat
  lossCount : Nat
  lastResult : Option Bool
  lastMarketId : Option String
  history : List HistoryEntry
deriving DecidableEq, Repr

/-- One Step A iteration as executed by the instance wrapper.  The
`checkMarketResults` override that would bump the counters and append a
history entry is commented out in the source, so the wrapper runs the
inherited base-class resolution, which touches only the stake fields;
the pair also returns the computed result for inspection. -/
def wrapperResolveTracked (side : Side) (ctx : ResolveCtx) (w : WrapperState) :
    WrapperState × Option Bool :=
  let o := resolveTracked15 side ctx w.stake
  ({ w with stake := o.state }, o.result)

/-- A context in which the tracked market resolved as a win. -/
def ctxWin : ResolveCtx :=
  { marketFound := true
    endDatePresent := true
    timeLeftSeconds := some 0
    quote := some { up := 995 / 1000, down := 5 / 1000 } }

/-- A freshly constructed wrapper state. -/
def wrapper0 : WrapperState :=
  { stake := stake0
    winCount := 0
    lossCount := 0
    lastResult := none
    lastMarketId := none
    history := [] }

/-- Claim C9 fails on the code: no resolution ever changes the history,
the win and loss counters or the last-result fields, and in particular a
concrete win resolution leaves the history empty and the win counter at
zero. -/
theorem history_never_appended :
    (∀ (side : Side) (ctx : ResolveCtx) (w : WrapperState),
      (wrapperResolveTracked side ctx w).1.history = w.history ∧
      (wrapperResolveTracked side ctx w).1.winCount = w.winCount ∧
      (wrapperResolveTracked side ctx w).1.lossCount = w.lossCount ∧
      (wrapperResolveTracked side ctx w).1.lastResult = w.lastResult ∧
      (wrapperResolveTracked side ctx w).1.lastMarketId = w.lastMarketId) ∧
    ((wrapperResolveTracked Side.UP ctxWin wrapper0).2 = some true ∧
      (wrapperResolveTracked Side.UP ctxWin wrapper0).1.history = [] ∧
      (wrapperResolveTracked Side.UP ctxWin wrapper0).1.winCount = 0) := by
  constructor
  · intro side ctx w
    exact ⟨rfl, rfl, rfl, rfl, rfl⟩
  · refine ⟨?_, rfl, rfl⟩
    norm_num [wrapperResolveTracked, resolveTracked15, ctxWin, jsGtNum, sideQuote]
